import Mathlib

/-!
# Verification of the py-omada API client and batch script

Shallow embedding of `src/pyomada/pyomada.py` (class `OmadaAPI`) and
`src/pyomada/enable_radios.py` (function `main`).

The HTTP transport is external I/O; each Python method is split into the
pure request it constructs (given the session state and the current clock
reading) and the pure processing of the `requests.Response` it receives.
JSON values are modelled by an inductive type, Python dicts of query
parameters by insertion-ordered association lists (`dict.update` replaces
the value of an existing key in place and appends new keys at the end).
-/

set_option autoImplicit false

namespace Pyomada

/-- JSON values, as produced by `response.json()` and passed as `json=` bodies. -/
inductive Json where
  | null : Json
  | bool (b : Bool) : Json
  | num (n : Int) : Json
  | str (s : String) : Json
  | arr (elems : List Json) : Json
  | obj (fields : List (String × Json)) : Json
  deriving Repr

/-- Exceptions the Python code can raise on the paths we model.
`keyError` is `KeyError` from `d[k]` on a dict missing `k`; `typeError` is
`TypeError` from subscripting a non-dict.

`authError` is modelled from the spec: the source defines no `AuthError`
class and no code path produces this constructor; it stands for the
distinct authentication error the spec's error taxonomy describes. -/
inductive PyError where
  | keyError (k : String) : PyError
  | typeError (msg : String) : PyError
  | authError : PyError
  deriving Repr, DecidableEq

/-- Whether an error is the spec's distinct authentication error. -/
def PyError.isAuth : PyError → Bool
  | .authError => true
  | _ => false

/-- Python `d[k]` on a JSON value: a key lookup on a dict, `KeyError` when the
key is absent, `TypeError` when the value is not a dict. -/
def Json.getItem (j : Json) (k : String) : Except PyError Json :=
  match j with
  | .obj fields =>
    match fields.find? (fun p => p.1 == k) with
    | some p => .ok p.2
    | none => .error (.keyError k)
  | _ => .error (.typeError "value is not subscriptable by string key")

/-- The in-memory session state of `OmadaAPI.__init__`: base URL, site,
TLS-verify flag, credentials, and the nullable auth token (`self.token`,
initialised to `None`, set by `login`). -/
structure Session where
  baseurl : String
  site : String
  verify : Bool
  token : Option Json
  login_username : String
  login_password : String
  deriving Repr

/-- `self.token` as it is placed into the query parameters: Python `None`
becomes JSON null, otherwise the stored token value. -/
def tokenJson : Option Json → Json
  | none => Json.null
  | some t => t

/-- `OmadaAPI.base_api_path`. -/
def base_api_path : String := "/api/v2"

/-- `OmadaAPI.path_to_url`: `self.baseurl + self.base_api_path + path`. -/
def path_to_url (s : Session) (path : String) : String :=
  s.baseurl ++ base_api_path ++ path

/-- `OmadaAPI.get_timestamp`: `int(datetime.utcnow().timestamp() * 1000)`.
The clock reading is modelled in integer microseconds since the epoch, so
seconds `* 1000` truncated to `int` is microseconds divided by `1000`. -/
def get_timestamp (now_us : Nat) : Nat :=
  now_us / 1000

/-- Python `dict` update for one key: replace the value in place when the
key is present, append the pair otherwise. -/
def updateParam (ps : List (String × Json)) (k : String) (v : Json) :
    List (String × Json) :=
  if ps.any (fun p => p.1 == k) then
    ps.map (fun p => if p.1 == k then (k, v) else p)
  else
    ps ++ [(k, v)]

/-- Python `endpoint_params.update({...})` over a list of pairs. -/
def updateParams (ps : List (String × Json)) (us : List (String × Json)) :
    List (String × Json) :=
  us.foldl (fun acc u => updateParam acc u.1 u.2) ps

/-- Reading a key from the query-parameter dict. -/
def lookupParam (ps : List (String × Json)) (k : String) : Option Json :=
  (ps.find? (fun p => p.1 == k)).map (fun p => p.2)

/-- The HTTP request dispatched by `makeApiCall`: method, full URL, query
parameters, optional JSON body, and whether `serialize_result` was set. -/
structure Request where
  mode : String
  url : String
  params : List (String × Json)
  body : Option Json
  serializeResult : Bool
  deriving Repr

/-- A `requests.Response`: HTTP status code and the JSON value its body
parses to. -/
structure HttpResponse where
  status_code : Nat
  body : Json
  deriving Repr

/-- What `makeApiCall` returns: with `serialize_result` the parsed JSON
body, otherwise the raw `requests.Response` object. -/
inductive ApiReturn where
  | json (j : Json) : ApiReturn
  | raw (r : HttpResponse) : ApiReturn
  deriving Repr

/-- The request-construction half of `OmadaAPI.makeApiCall`: prepend the
base URL unless `bare_url`, and when `include_token` update the endpoint
params with `token = self.token` and `_ = self.get_timestamp()`. -/
def makeApiCallRequest (s : Session) (now_us : Nat) (url : String)
    (mode : String) (endpoint_params : List (String × Json))
    (jsonBody : Option Json) (include_token : Bool) (bare_url : Bool)
    (serialize_result : Bool) : Request :=
  let fullUrl := if bare_url then url else path_to_url s url
  let ps :=
    if include_token then
      updateParams endpoint_params
        [("token", tokenJson s.token),
         ("_", Json.num (Int.ofNat (get_timestamp now_us)))]
    else
      endpoint_params
  ⟨mode, fullUrl, ps, jsonBody, serialize_result⟩

/-- The response-processing half of `OmadaAPI.makeApiCall`: with
`serialize_result` it parses the body (`data.json()`) and returns
`response["json_data"]`, i.e. the whole parsed JSON value; otherwise it
returns the raw response object. -/
def makeApiCallReturn (resp : HttpResponse) (serialize_result : Bool) :
    ApiReturn :=
  if serialize_result then .json resp.body else .raw resp

/-! ## Requests built by the individual `OmadaAPI` methods

Each `*_request` is exactly the `makeApiCall` invocation of the
corresponding method, with the arguments the method passes (defaults of
`makeApiCall`: `endpoint_params = {}`, `include_token = True`,
`bare_url = False`, `serialize_result = True`). -/

/-- The request of `OmadaAPI.login`: `POST /login` with the credentials as
JSON body and `include_token=False`. -/
def login_request (s : Session) (now_us : Nat) : Request :=
  makeApiCallRequest s now_us "/login" "POST" []
    (some (Json.obj
      [("username", Json.str s.login_username),
       ("password", Json.str s.login_password)]))
    false false true

/-- The request of `OmadaAPI.logout`: `POST /logout` with
`include_token=False` and `serialize_result=False`. -/
def logout_request (s : Session) (now_us : Nat) : Request :=
  makeApiCallRequest s now_us "/logout" "POST" [] none false false false

/-- The request of `OmadaAPI.is_logged`: `GET /loginStatus` with
`serialize_result=False` (and the default `include_token=True`). -/
def is_logged_request (s : Session) (now_us : Nat) : Request :=
  makeApiCallRequest s now_us "/loginStatus" "GET" [] none true false false

/-- The request of `OmadaAPI.get_admins`: `GET /users`. -/
def get_admins_request (s : Session) (now_us : Nat) : Request :=
  makeApiCallRequest s now_us "/users" "GET" [] none true false true

/-- The request of `OmadaAPI.get_sites`: `GET /sites`. -/
def get_sites_request (s : Session) (now_us : Nat) : Request :=
  makeApiCallRequest s now_us "/sites" "GET" [] none true false true

/-- The request of `OmadaAPI.get_scenarios`: `GET /scenarios`. -/
def get_scenarios_request (s : Session) (now_us : Nat) : Request :=
  makeApiCallRequest s now_us "/scenarios" "GET" [] none true false true

/-- The request of `OmadaAPI.get_site_settings`: `GET
/sites/{site_key}/setting`. In the source, `site_key: str` is a required
positional parameter: it has no `None` default and no fallback to
`self.site`. -/
def get_site_settings_request (s : Session) (now_us : Nat)
    (site_key : String) : Request :=
  makeApiCallRequest s now_us ("/sites/" ++ site_key ++ "/setting") "GET"
    [] none true false true

/-- The request of `OmadaAPI.get_devices`: `GET /sites/{site_key}/devices`,
where `site_key = None` defaults to `self.site`. -/
def get_devices_request (s : Session) (now_us : Nat)
    (site_key : Option String) : Request :=
  let sk := site_key.getD s.site
  makeApiCallRequest s now_us ("/sites/" ++ sk ++ "/devices") "GET"
    [] none true false true

/-- The request of `OmadaAPI.get_eap_data`: `GET
/sites/{site_key}/eaps/{eap_mac}`, with the same `self.site` default. -/
def get_eap_data_request (s : Session) (now_us : Nat) (eap_mac : String)
    (site_key : Option String) : Request :=
  let sk := site_key.getD s.site
  makeApiCallRequest s now_us ("/sites/" ++ sk ++ "/eaps/" ++ eap_mac)
    "GET" [] none true false true

/-- The PATCH body of `OmadaAPI.set_eap_2g_radio`:
`{"radioSetting2g": {"radioEnable": radio_status}}`. -/
def radio2gBody (radio_status : Bool) : Json :=
  Json.obj [("radioSetting2g", Json.obj [("radioEnable", Json.bool radio_status)])]

/-- The PATCH body of `OmadaAPI.set_eap_5g_radio`:
`{"radioSetting5g": {"radioEnable": radio_status}}`. -/
def radio5gBody (radio_status : Bool) : Json :=
  Json.obj [("radioSetting5g", Json.obj [("radioEnable", Json.bool radio_status)])]

/-- The PATCH body of `OmadaAPI.set_eap_led_status`:
`{"ledSetting": led_status}`. -/
def ledBody (led_status : Int) : Json :=
  Json.obj [("ledSetting", Json.num led_status)]

/-- The request of `OmadaAPI.set_eap_2g_radio`: `PATCH
/sites/{site_key}/eaps/{eap_mac}` with the 2g radio body, `site_key = None`
defaulting to `self.site`. -/
def set_eap_2g_radio_request (s : Session) (now_us : Nat) (eap_mac : String)
    (radio_status : Bool) (site_key : Option String) : Request :=
  let sk := site_key.getD s.site
  makeApiCallRequest s now_us ("/sites/" ++ sk ++ "/eaps/" ++ eap_mac)
    "PATCH" [] (some (radio2gBody radio_status)) true false true

/-- The request of `OmadaAPI.set_eap_led_status`: `PATCH
/sites/{site_key}/eaps/{eap_mac}` with the led body. -/
def set_eap_led_status_request (s : Session) (now_us : Nat)
    (eap_mac : String) (led_status : Int) (site_key : Option String) :
    Request :=
  let sk := site_key.getD s.site
  makeApiCallRequest s now_us ("/sites/" ++ sk ++ "/eaps/" ++ eap_mac)
    "PATCH" [] (some (ledBody led_status)) true false true

/-- The request of `OmadaAPI.set_eap_5g_radio`: `PATCH
/sites/{site_key}/eaps/{eap_mac}` with the 5g radio body. -/
def set_eap_5g_radio_request (s : Session) (now_us : Nat) (eap_mac : String)
    (radio_status : Bool) (site_key : Option String) : Request :=
  let sk := site_key.getD s.site
  makeApiCallRequest s now_us ("/sites/" ++ sk ++ "/eaps/" ++ eap_mac)
    "PATCH" [] (some (radio5gBody radio_status)) true false true

/-! ## Response processing of the individual methods -/

/-- `OmadaAPI.login` after the response arrives, with state threaded
explicitly: `self.token = result["result"]["token"]; return self.token`.
The right-hand side is evaluated first — the two subscripts, each of which
can raise — and the assignment to `self.token` happens only after both
succeed, so on an error the returned session is the unchanged input. -/
def loginRun (s : Session) (resp : HttpResponse) :
    Session × Except PyError Json :=
  match makeApiCallReturn resp true with
  | ApiReturn.raw _ =>
    (s, Except.error (PyError.typeError "value is not subscriptable by string key"))
  | ApiReturn.json envelope =>
    match envelope.getItem "result" with
    | Except.error e => (s, Except.error e)
    | Except.ok r =>
      match r.getItem "token" with
      | Except.error e => (s, Except.error e)
      | Except.ok t => ({s with token := some t}, Except.ok t)

/-- The logging calls `logout` can make. -/
inductive LogAction where
  | info (msg : String) : LogAction
  | warn (msg : String) : LogAction
  deriving Repr, DecidableEq

/-- `OmadaAPI.logout` after the response arrives: `logging.info` on status
200, otherwise `logging.warning`; it never raises and never parses the
body. -/
def logout_handle (resp : HttpResponse) : LogAction :=
  if resp.status_code == 200 then
    LogAction.info "logged out"
  else
    LogAction.warn ("logout failed with status code " ++ toString resp.status_code)

/-- `OmadaAPI.is_logged` after the response arrives: `True` if
`result.status_code == 200`, `False` otherwise. -/
def is_logged (resp : HttpResponse) : Bool :=
  if resp.status_code == 200 then true else false

/-- `OmadaAPI.get_scenarios` after the response arrives: takes the value
`makeApiCall` returned and subscripts it with `"result"`. -/
def get_scenarios_result (resp : HttpResponse) : Except PyError Json :=
  match makeApiCallReturn resp true with
  | ApiReturn.json j => j.getItem "result"
  | ApiReturn.raw _ =>
    Except.error (PyError.typeError "value is not subscriptable by string key")

/-- `OmadaAPI.set_eap_2g_radio` returns the value of `makeApiCall`
unchanged. -/
def set_eap_2g_radio_return (resp : HttpResponse) : ApiReturn :=
  makeApiCallReturn resp true

/-- `OmadaAPI.set_eap_led_status` returns the value of `makeApiCall`
unchanged. -/
def set_eap_led_status_return (resp : HttpResponse) : ApiReturn :=
  makeApiCallReturn resp true

/-! ## Which methods default an omitted `site_key` to the session's site

Read off the parameter lists of the source: a method defaults iff its
signature declares `site_key: str = None` and its body starts with
`if site_key is None: site_key = self.site`. `get_site_settings` instead
declares `site_key: str` with no default and no fallback. -/

/-- Per method, whether an omitted `site_key` argument falls back to
`self.site` (from the source signatures and the `if site_key is None`
prologues). -/
def siteKeyDefaultsToSession : String → Bool
  | "get_site_settings" => false
  | "get_devices" => true
  | "get_eap_data" => true
  | "set_eap_2g_radio" => true
  | "set_eap_led_status" => true
  | "set_eap_5g_radio" => true
  | _ => false

/-! ## The batch script `enable_radios.main`

After parsing flags and logging in, `main` extracts the device rows
(each with `mac` and `name` columns) and iterates them in order: for each
row it calls `set_eap_2g_radio(eap_mac=mac, radio_status=radio_status)`
and, unless `--no-leds`, `set_eap_led_status(eap_mac=mac,
led_status=led_status)`, where `radio_status`/`led_status` are
`True`/`1` without `--disable` and `False`/`0` with it. -/

/-- One row of the device table: the two columns `main` reads. -/
structure Device where
  mac : String
  name : String
  deriving Repr, DecidableEq

/-- The sequence of HTTP requests issued by the device loop of
`enable_radios.main`, with the clock sampled once per issued call
(`idx` counts the calls made so far). -/
def batchLoopAux (s : Session) (clock : Nat → Nat) (disable noleds : Bool) :
    List Device → Nat → List Request
  | [], _ => []
  | d :: ds, idx =>
    let radio_status := !disable
    let led_status : Int := if !disable then 1 else 0
    let r1 := set_eap_2g_radio_request s (clock idx) d.mac radio_status none
    if noleds then
      r1 :: batchLoopAux s clock disable noleds ds (idx + 1)
    else
      r1 ::
      set_eap_led_status_request s (clock (idx + 1)) d.mac led_status none ::
      batchLoopAux s clock disable noleds ds (idx + 2)

/-- The device loop of `enable_radios.main`, started at call index 0. -/
def batchLoop (s : Session) (clock : Nat → Nat) (disable noleds : Bool)
    (devices : List Device) : List Request :=
  batchLoopAux s clock disable noleds devices 0

/-- Whether a request's JSON body is an object with field `k`. -/
def bodyHasKey (r : Request) (k : String) : Bool :=
  match r.body with
  | some (Json.obj fields) => fields.any (fun p => p.1 == k)
  | _ => false

/-- The `ledSetting` value of a request's body, when the body is exactly a
led PATCH body. -/
def bodyLed (r : Request) : Option Int :=
  match r.body with
  | some (Json.obj [("ledSetting", Json.num n)]) => some n
  | _ => none

/-- Follows the claim's words: with `--disable`, for each device in list
order, a PATCH to `/sites/{site}/eaps/{mac}` with body
`{"radioSetting2g": {"radioEnable": false}}` followed by a PATCH with body
`{"ledSetting": 0}`. Recorded as `(mode, url, body)` triples. -/
def specDisableCalls (s : Session) :
    List Device → List (String × String × Option Json)
  | [] => []
  | d :: ds =>
    ("PATCH", path_to_url s ("/sites/" ++ s.site ++ "/eaps/" ++ d.mac),
      some (radio2gBody false)) ::
    ("PATCH", path_to_url s ("/sites/" ++ s.site ++ "/eaps/" ++ d.mac),
      some (ledBody 0)) ::
    specDisableCalls s ds

/-- Follows the claim's words: with `--disable --no-leds`, only the radio
PATCH call is issued per device, in list order. -/
def specDisableNoLedsCalls (s : Session) :
    List Device → List (String × String × Option Json)
  | [] => []
  | d :: ds =>
    ("PATCH", path_to_url s ("/sites/" ++ s.site ++ "/eaps/" ++ d.mac),
      some (radio2gBody false)) ::
    specDisableNoLedsCalls s ds

/-! ## Concrete fixtures used by witnesses and counterexamples -/

/-- A concrete session as built from the constructor defaults, with a
stored token. -/
def testSession : Session :=
  { baseurl := "https://omadacontroller.local:8043"
    site := "Default"
    verify := true
    token := some (Json.str "SESSION-TOKEN")
    login_username := "admin"
    login_password := "secret" }

/-- A concrete session before login (`self.token = None`). -/
def freshSession : Session :=
  { testSession with token := none }

/-- A concrete successful login envelope
`{"errorCode": 0, "msg": "Success.", "result": {"token": ..., "roleType": 0}}`. -/
def loginEnvelope : Json :=
  Json.obj
    [("errorCode", Json.num 0),
     ("msg", Json.str "Success."),
     ("result", Json.obj
       [("token", Json.str "TOK-123"), ("roleType", Json.num 0)])]

/-- A concrete envelope whose `result` is a bare string payload. -/
def payloadEnvelope : Json :=
  Json.obj
    [("errorCode", Json.num 0),
     ("msg", Json.str "Success."),
     ("result", Json.str "PAYLOAD")]

/-- A concrete login envelope with no `result` field at all. -/
def tokenlessEnvelope : Json :=
  Json.obj [("errorCode", Json.num (-30109)), ("msg", Json.str "Login failed.")]

/-- The two-device site of the spec's end-to-end scenario. -/
def testDevices : List Device :=
  [{ mac := "AA:BB", name := "EAP1" }, { mac := "CC:DD", name := "EAP2" }]

/-! ## Helper lemmas on the query-parameter dict -/

theorem updateParam_cons_ne (p : String × Json) (ps : List (String × Json))
    (k : String) (v : Json) (h : (p.1 == k) = false) :
    updateParam (p :: ps) k v = p :: updateParam ps k v := by
  simp only [updateParam, List.any_cons, h, Bool.false_or, List.map_cons, h,
    if_neg (by simpa using h), List.cons_append]
  split <;> rfl

theorem updateParam_cons_eq (p : String × Json) (ps : List (String × Json))
    (k : String) (v : Json) (h : (p.1 == k) = true) :
    updateParam (p :: ps) k v =
      (k, v) :: ps.map (fun q => if q.1 == k then (k, v) else q) := by
  simp only [updateParam, List.any_cons, h, Bool.true_or, List.map_cons]
  simp [h]

theorem lookupParam_updateParam_self (ps : List (String × Json))
    (k : String) (v : Json) :
    lookupParam (updateParam ps k v) k = some v := by
  induction ps with
  | nil => simp [updateParam, lookupParam]
  | cons p ps ih =>
    by_cases hp : (p.1 == k) = true
    · rw [updateParam_cons_eq p ps k v hp]
      simp [lookupParam]
    · rw [updateParam_cons_ne p ps k v (by simpa using hp)]
      simpa [lookupParam, List.find?_cons, hp] using ih

theorem lookupParam_map_replace (ps : List (String × Json))
    (k k2 : String) (v : Json) (hne : (k == k2) = false) :
    lookupParam (ps.map (fun q => if q.1 == k then (k, v) else q)) k2 =
      lookupParam ps k2 := by
  induction ps with
  | nil => simp [lookupParam]
  | cons p ps ih =>
    by_cases hp : (p.1 == k) = true
    · have hp2 : (p.1 == k2) = false := by
        have : p.1 = k := by simpa using hp
        simpa [this] using hne
      simp only [List.map_cons, if_pos hp]
      simpa [lookupParam, List.find?_cons, hne, hp2] using ih
    · simp only [List.map_cons, if_neg hp]
      by_cases hp2 : (p.1 == k2) = true
      · simp [lookupParam, List.find?_cons, hp2]
      · simpa [lookupParam, List.find?_cons, hp2] using ih

theorem lookupParam_updateParam_ne (ps : List (String × Json))
    (k k2 : String) (v : Json) (hne : (k == k2) = false) :
    lookupParam (updateParam ps k v) k2 = lookupParam ps k2 := by
  induction ps with
  | nil => simp [updateParam, lookupParam, List.find?_cons, hne]
  | cons p ps ih =>
    by_cases hp : (p.1 == k) = true
    · have hp2 : (p.1 == k2) = false := by
        have : p.1 = k := by simpa using hp
        simpa [this] using hne
      rw [updateParam_cons_eq p ps k v hp]
      simp only [lookupParam, List.find?_cons, hne, hp2]
      exact lookupParam_map_replace ps k k2 v hne
    · rw [updateParam_cons_ne p ps k v (by simpa using hp)]
      by_cases hp2 : (p.1 == k2) = true
      · simp [lookupParam, List.find?_cons, hp2]
      · simpa [lookupParam, List.find?_cons, hp2] using ih

/-- With `include_token`, the built request's `token` parameter is exactly
the session's stored token, whatever parameters the caller passed. -/
theorem lookupParam_token (s : Session) (now_us : Nat) (url mode : String)
    (ps : List (String × Json)) (body : Option Json) (bare ser : Bool) :
    lookupParam
      (makeApiCallRequest s now_us url mode ps body true bare ser).params
      "token" = some (tokenJson s.token) := by
  show lookupParam
      (updateParam (updateParam ps "token" (tokenJson s.token)) "_"
        (Json.num (Int.ofNat (get_timestamp now_us)))) "token" =
    some (tokenJson s.token)
  rw [lookupParam_updateParam_ne _ "_" "token" _ (by decide)]
  exact lookupParam_updateParam_self ps "token" (tokenJson s.token)

/-- With `include_token`, the built request's `_` parameter is exactly the
truncated-to-milliseconds clock reading. -/
theorem lookupParam_timestamp (s : Session) (now_us : Nat)
    (url mode : String) (ps : List (String × Json)) (body : Option Json)
    (bare ser : Bool) :
    lookupParam
      (makeApiCallRequest s now_us url mode ps body true bare ser).params
      "_" = some (Json.num (Int.ofNat (get_timestamp now_us))) := by
  show lookupParam
      (updateParam (updateParam ps "token" (tokenJson s.token)) "_"
        (Json.num (Int.ofNat (get_timestamp now_us)))) "_" =
    some (Json.num (Int.ofNat (get_timestamp now_us)))
  exact lookupParam_updateParam_self _ "_" _

/-- A `d[k]` lookup can only raise `KeyError` or `TypeError`, never the
spec's authentication error. -/
theorem getItem_error_not_auth (j : Json) (k : String) (e : PyError)
    (h : j.getItem k = Except.error e) : e.isAuth = false := by
  cases j with
  | obj fields =>
    simp only [Json.getItem] at h
    cases hf : fields.find? (fun p => p.1 == k) with
    | some p => rw [hf] at h; cases h
    | none =>
      rw [hf] at h
      cases h
      rfl
  | null => cases h; rfl
  | bool b => cases h; rfl
  | num n => cases h; rfl
  | str s => cases h; rfl
  | arr elems => cases h; rfl

/-! ## Claims -/

/-- C1: for every login response whose JSON body contains a nested
`result.token` field, `login()` returns exactly that token, stores it in
the session, and every subsequent token-including call attaches it as the
`token` query parameter. -/
theorem login_returns_and_stores_token (s : Session) (resp : HttpResponse)
    (t : Json)
    (h : (resp.body.getItem "result").bind (fun r => r.getItem "token") =
      Except.ok t) :
    (loginRun s resp).2 = Except.ok t ∧
    (loginRun s resp).1.token = some t ∧
    ∀ (now_us : Nat) (url mode : String) (ps : List (String × Json))
      (body : Option Json) (bare ser : Bool),
      lookupParam
        (makeApiCallRequest (loginRun s resp).1 now_us url mode ps body
          true bare ser).params "token" = some t := by
  cases hr : resp.body.getItem "result" with
  | error e => rw [hr] at h; simp [Except.bind] at h
  | ok r =>
    cases ht : r.getItem "token" with
    | error e => rw [hr] at h; simp [Except.bind, ht] at h
    | ok t2 =>
      rw [hr] at h
      simp only [Except.bind, ht] at h
      cases h
      have hrun : loginRun s resp = ({s with token := some t}, Except.ok t) := by
        simp [loginRun, makeApiCallReturn, hr, ht]
      refine ⟨by rw [hrun], by rw [hrun], ?_⟩
      intro now_us url mode ps body bare ser
      rw [hrun]
      simpa [tokenJson] using
        lookupParam_token {s with token := some t} now_us url mode ps body
          bare ser

/-- Witness for C1 at the concrete login envelope. -/
theorem login_returns_and_stores_token_witness :
    (loginRun freshSession ⟨200, loginEnvelope⟩).2 =
      Except.ok (Json.str "TOK-123") ∧
    (loginRun freshSession ⟨200, loginEnvelope⟩).1.token =
      some (Json.str "TOK-123") ∧
    lookupParam
      (makeApiCallRequest (loginRun freshSession ⟨200, loginEnvelope⟩).1
        1700000000000000 "/users" "GET" [] none true false true).params
      "token" = some (Json.str "TOK-123") := by
  have h := login_returns_and_stores_token freshSession ⟨200, loginEnvelope⟩
    (Json.str "TOK-123") rfl
  exact ⟨h.1, h.2.1, h.2.2 1700000000000000 "/users" "GET" [] none false true⟩

/-- C2 counterexample: at the concrete envelope
`{"errorCode": 0, "msg": "Success.", "result": "PAYLOAD"}`, `makeApiCall`
with result serialization does not return the inner `result` field
(`"PAYLOAD"`); it returns the whole envelope, and so does
`set_eap_2g_radio`. -/
theorem makeApiCall_returns_inner_result_cex :
    makeApiCallReturn ⟨200, payloadEnvelope⟩ true ≠
      ApiReturn.json (Json.str "PAYLOAD") ∧
    set_eap_2g_radio_return ⟨200, payloadEnvelope⟩ =
      ApiReturn.json payloadEnvelope := by
  refine ⟨?_, rfl⟩
  intro h
  simp [makeApiCallReturn, payloadEnvelope] at h

/-- C2 amended: with result serialization requested, `makeApiCall` parses
the HTTP body as JSON and returns the whole parsed envelope, not just its
inner `result` field; `set_eap_2g_radio` and `set_eap_led_status` return
that whole envelope, while readers such as `get_scenarios` extract the
inner `result` field themselves. -/
theorem makeApiCall_serialize_returns_envelope (resp : HttpResponse) :
    makeApiCallReturn resp true = ApiReturn.json resp.body ∧
    set_eap_2g_radio_return resp = ApiReturn.json resp.body ∧
    set_eap_led_status_return resp = ApiReturn.json resp.body ∧
    get_scenarios_result resp = resp.body.getItem "result" := by
  exact ⟨rfl, rfl, rfl, rfl⟩

/-- C4 counterexample: at a concrete login response lacking the nested
`result.token` field, `login()` raises a generic key-lookup failure
(`KeyError("result")`), which is not the spec's distinct `AuthError`. -/
theorem login_missing_token_autherror_cex :
    (loginRun testSession ⟨200, tokenlessEnvelope⟩).2 =
      Except.error (PyError.keyError "result") ∧
    PyError.keyError "result" ≠ PyError.authError := by
  exact ⟨rfl, by simp⟩

/-- C4 amended: for every login response on which the nested token
extraction fails, `login()` raises exactly that generic key-lookup or type
failure (`KeyError`/`TypeError`); the source defines no `AuthError`, and no
login failure is a distinct authentication error. -/
theorem login_missing_token_generic_error (s : Session)
    (resp : HttpResponse) (e : PyError)
    (h : (resp.body.getItem "result").bind (fun r => r.getItem "token") =
      Except.error e) :
    (loginRun s resp).2 = Except.error e ∧ e.isAuth = false := by
  cases hr : resp.body.getItem "result" with
  | error e0 =>
    rw [hr] at h
    simp only [Except.bind] at h
    have he : e0 = e := by injection h
    constructor
    · calc (loginRun s resp).2 = Except.error e0 := by
            simp [loginRun, makeApiCallReturn, hr]
        _ = Except.error e := h
    · rw [← he]
      exact getItem_error_not_auth resp.body "result" e0 hr
  | ok r =>
    rw [hr] at h
    simp only [Except.bind] at h
    constructor
    · simp [loginRun, makeApiCallReturn, hr, h]
    · exact getItem_error_not_auth r "token" e h

/-- Witness for the amended C4 at the concrete tokenless envelope. -/
theorem login_missing_token_generic_error_witness :
    (loginRun testSession ⟨200, tokenlessEnvelope⟩).2 =
      Except.error (PyError.keyError "result") ∧
    (PyError.keyError "result").isAuth = false := by
  exact login_missing_token_generic_error testSession ⟨200, tokenlessEnvelope⟩
    (PyError.keyError "result") rfl

/-- C10: for every login response on which the nested token extraction
fails, the exception propagates before the assignment to `self.token`, so
the session's stored token is unchanged. -/
theorem failed_login_leaves_token_unchanged (s : Session)
    (resp : HttpResponse) (e : PyError)
    (h : (loginRun s resp).2 = Except.error e) :
    (loginRun s resp).1.token = s.token := by
  cases hr : resp.body.getItem "result" with
  | error e0 => simp [loginRun, makeApiCallReturn, hr]
  | ok r =>
    cases ht : r.getItem "token" with
    | error e1 => simp [loginRun, makeApiCallReturn, hr, ht]
    | ok t =>
      have : (loginRun s resp).2 = Except.ok t := by
        simp [loginRun, makeApiCallReturn, hr, ht]
      rw [this] at h
      cases h

/-- Witness for C10 at the concrete tokenless envelope. -/
theorem failed_login_leaves_token_unchanged_witness :
    (loginRun testSession ⟨200, tokenlessEnvelope⟩).1.token =
      testSession.token := by
  exact failed_login_leaves_token_unchanged testSession
    ⟨200, tokenlessEnvelope⟩ (PyError.keyError "result") rfl

/-- C3 counterexample: `logout` is a call other than login, yet its request
carries neither a `token` nor a `_` query parameter: the code passes
`include_token=False` for logout as well as for login. -/
theorem logout_carries_no_token_cex :
    lookupParam (logout_request testSession 1700000000000000).params
      "token" = none ∧
    lookupParam (logout_request testSession 1700000000000000).params
      "_" = none := by
  exact ⟨rfl, rfl⟩

/-- C3 amended: every call to the API other than login and logout carries
the query parameters `token` (the session token) and `_` (current epoch
milliseconds); token/timestamp injection is suppressed exactly for the
login and logout calls. -/
theorem non_login_logout_calls_carry_token (s : Session) (now_us : Nat)
    (site_key mac : String) (opt_key : Option String) (radio : Bool)
    (led : Int) :
    (lookupParam (is_logged_request s now_us).params "token" =
        some (tokenJson s.token) ∧
      lookupParam (is_logged_request s now_us).params "_" =
        some (Json.num (Int.ofNat (get_timestamp now_us)))) ∧
    (lookupParam (get_admins_request s now_us).params "token" =
        some (tokenJson s.token) ∧
      lookupParam (get_admins_request s now_us).params "_" =
        some (Json.num (Int.ofNat (get_timestamp now_us)))) ∧
    (lookupParam (get_sites_request s now_us).params "token" =
        some (tokenJson s.token) ∧
      lookupParam (get_sites_request s now_us).params "_" =
        some (Json.num (Int.ofNat (get_timestamp now_us)))) ∧
    (lookupParam (get_scenarios_request s now_us).params "token" =
        some (tokenJson s.token) ∧
      lookupParam (get_scenarios_request s now_us).params "_" =
        some (Json.num (Int.ofNat (get_timestamp now_us)))) ∧
    (lookupParam (get_site_settings_request s now_us site_key).params
        "token" = some (tokenJson s.token) ∧
      lookupParam (get_site_settings_request s now_us site_key).params "_" =
        some (Json.num (Int.ofNat (get_timestamp now_us)))) ∧
    (lookupParam (get_devices_request s now_us opt_key).params "token" =
        some (tokenJson s.token) ∧
      lookupParam (get_devices_request s now_us opt_key).params "_" =
        some (Json.num (Int.ofNat (get_timestamp now_us)))) ∧
    (lookupParam (get_eap_data_request s now_us mac opt_key).params
        "token" = some (tokenJson s.token) ∧
      lookupParam (get_eap_data_request s now_us mac opt_key).params "_" =
        some (Json.num (Int.ofNat (get_timestamp now_us)))) ∧
    (lookupParam (set_eap_2g_radio_request s now_us mac radio opt_key).params
        "token" = some (tokenJson s.token) ∧
      lookupParam
          (set_eap_2g_radio_request s now_us mac radio opt_key).params "_" =
        some (Json.num (Int.ofNat (get_timestamp now_us)))) ∧
    (lookupParam
          (set_eap_led_status_request s now_us mac led opt_key).params
        "token" = some (tokenJson s.token) ∧
      lookupParam
          (set_eap_led_status_request s now_us mac led opt_key).params "_" =
        some (Json.num (Int.ofNat (get_timestamp now_us)))) ∧
    (lookupParam (set_eap_5g_radio_request s now_us mac radio opt_key).params
        "token" = some (tokenJson s.token) ∧
      lookupParam
          (set_eap_5g_radio_request s now_us mac radio opt_key).params "_" =
        some (Json.num (Int.ofNat (get_timestamp now_us)))) := by
  refine ⟨⟨?_, ?_⟩, ⟨?_, ?_⟩, ⟨?_, ?_⟩, ⟨?_, ?_⟩, ⟨?_, ?_⟩, ⟨?_, ?_⟩,
    ⟨?_, ?_⟩, ⟨?_, ?_⟩, ⟨?_, ?_⟩, ⟨?_, ?_⟩⟩ <;>
    first
      | exact lookupParam_token s now_us _ _ [] _ _ _
      | exact lookupParam_timestamp s now_us _ _ [] _ _ _

/-- C6 counterexample: `get_site_settings` (listSiteSettings) takes a
required `site_key: str` with no `None` default and no fallback to
`self.site`, so its site key cannot be omitted, while `get_devices` does
default. -/
theorem get_site_settings_no_default_cex :
    siteKeyDefaultsToSession "get_site_settings" = false ∧
    siteKeyDefaultsToSession "get_devices" = true := by
  exact ⟨rfl, rfl⟩

/-- C6 amended: for `get_devices` (listDevices), `get_eap_data`
(getDevice), `set_eap_2g_radio`/`set_eap_5g_radio` (setRadio) and
`set_eap_led_status` (setLedStatus), an omitted `site_key` defaults to the
session's configured site; `get_site_settings` (listSiteSettings) instead
requires an explicit site key. -/
theorem site_key_defaults_to_session (s : Session) (now_us : Nat)
    (mac : String) (radio : Bool) (led : Int) :
    get_devices_request s now_us none =
      get_devices_request s now_us (some s.site) ∧
    get_eap_data_request s now_us mac none =
      get_eap_data_request s now_us mac (some s.site) ∧
    set_eap_2g_radio_request s now_us mac radio none =
      set_eap_2g_radio_request s now_us mac radio (some s.site) ∧
    set_eap_led_status_request s now_us mac led none =
      set_eap_led_status_request s now_us mac led (some s.site) ∧
    set_eap_5g_radio_request s now_us mac radio none =
      set_eap_5g_radio_request s now_us mac radio (some s.site) ∧
    siteKeyDefaultsToSession "get_site_settings" = false := by
  exact ⟨rfl, rfl, rfl, rfl, rfl, rfl⟩

/-- C7: `is_logged` returns true iff the status check yields HTTP 200,
returns false for any other status, and, being a total function of the
status code, raises no exception. -/
theorem is_logged_iff_status_200 (resp : HttpResponse) :
    (is_logged resp = true ↔ resp.status_code = 200) ∧
    (resp.status_code ≠ 200 → is_logged resp = false) := by
  by_cases h : resp.status_code = 200 <;> simp [is_logged, h]

/-- Witness for C7 at a concrete non-200 status. -/
theorem is_logged_iff_status_200_witness :
    (is_logged ⟨302, Json.null⟩ = true ↔ (302 : Nat) = 200) ∧
    is_logged ⟨302, Json.null⟩ = false := by
  have h := is_logged_iff_status_200 ⟨302, Json.null⟩
  exact ⟨h.1, h.2 (by decide)⟩

/-- C8: for every status code, `logout` attaches no `token` (and no `_`)
parameter, requests the raw response (`serialize_result=False`, so the body
is never parsed as JSON), and, being total, raises no exception: on status
200 it logs an info message, on any other status only a warning. -/
theorem logout_fire_and_forget (s : Session) (now_us : Nat)
    (resp : HttpResponse) :
    lookupParam (logout_request s now_us).params "token" = none ∧
    lookupParam (logout_request s now_us).params "_" = none ∧
    (logout_request s now_us).serializeResult = false ∧
    (resp.status_code = 200 →
      logout_handle resp = LogAction.info "logged out") ∧
    (resp.status_code ≠ 200 →
      logout_handle resp =
        LogAction.warn
          ("logout failed with status code " ++ toString resp.status_code)) := by
  refine ⟨rfl, rfl, rfl, ?_, ?_⟩ <;> intro h <;> simp [logout_handle, h]

/-- Witness for C8 at a concrete failing status. -/
theorem logout_fire_and_forget_witness :
    lookupParam (logout_request testSession 0).params "token" = none ∧
    logout_handle ⟨500, Json.null⟩ =
      LogAction.warn ("logout failed with status code " ++ toString (500 : Nat)) := by
  have h := logout_fire_and_forget testSession 0 ⟨500, Json.null⟩
  exact ⟨h.1, h.2.2.2.2 (by decide)⟩

/-- C9: within one session, with a monotone clock, the `_` timestamp query
parameter attached to sequential token-including calls is non-decreasing:
each call's `_` parameter is `get_timestamp` of the clock at that call,
which is monotone. -/
theorem timestamp_param_nondecreasing (clock : Nat → Nat)
    (hm : ∀ i j : Nat, i ≤ j → clock i ≤ clock j) (i j : Nat) (hij : i ≤ j)
    (s1 s2 : Session) (u1 u2 m1 m2 : String)
    (ps1 ps2 : List (String × Json)) (b1 b2 : Option Json)
    (bare1 bare2 ser1 ser2 : Bool) :
    lookupParam
        (makeApiCallRequest s1 (clock i) u1 m1 ps1 b1 true bare1 ser1).params
        "_" = some (Json.num (Int.ofNat (get_timestamp (clock i)))) ∧
    lookupParam
        (makeApiCallRequest s2 (clock j) u2 m2 ps2 b2 true bare2 ser2).params
        "_" = some (Json.num (Int.ofNat (get_timestamp (clock j)))) ∧
    get_timestamp (clock i) ≤ get_timestamp (clock j) := by
  refine ⟨lookupParam_timestamp s1 (clock i) u1 m1 ps1 b1 bare1 ser1,
    lookupParam_timestamp s2 (clock j) u2 m2 ps2 b2 bare2 ser2, ?_⟩
  exact Nat.div_le_div_right (hm i j hij)

/-- Unfolded one-step description of the device loop with `--disable` and
leds enabled. -/
theorem batchLoopAux_disable_leds_map (s : Session) (clock : Nat → Nat)
    (devices : List Device) : ∀ idx : Nat,
    (batchLoopAux s clock true false devices idx).map
      (fun r => (r.mode, r.url, r.body)) = specDisableCalls s devices := by
  induction devices with
  | nil => intro idx; rfl
  | cons d ds ih =>
    intro idx
    simp [batchLoopAux, specDisableCalls, set_eap_2g_radio_request,
      set_eap_led_status_request, makeApiCallRequest, Option.getD, ih]

/-- Unfolded one-step description of the device loop with `--disable
--no-leds`. -/
theorem batchLoopAux_disable_noleds_map (s : Session) (clock : Nat → Nat)
    (devices : List Device) : ∀ idx : Nat,
    (batchLoopAux s clock true true devices idx).map
      (fun r => (r.mode, r.url, r.body)) = specDisableNoLedsCalls s devices := by
  induction devices with
  | nil => intro idx; rfl
  | cons d ds ih =>
    intro idx
    simp [batchLoopAux, specDisableNoLedsCalls, set_eap_2g_radio_request,
      makeApiCallRequest, Option.getD, ih]

/-- No request of the device loop carries a `radioSetting5g` body, for
either led flag. -/
theorem batchLoopAux_no_5g (s : Session) (clock : Nat → Nat)
    (noleds : Bool) (devices : List Device) : ∀ idx : Nat,
    (batchLoopAux s clock true noleds devices idx).all
      (fun r => !(bodyHasKey r "radioSetting5g")) = true := by
  induction devices with
  | nil => intro idx; rfl
  | cons d ds ih =>
    intro idx
    cases noleds <;>
      simp [batchLoopAux, set_eap_2g_radio_request,
        set_eap_led_status_request, makeApiCallRequest, bodyHasKey,
        radio2gBody, ledBody, ih] <;>
      · intro x hx
        have hx2 := List.all_eq_true.mp (ih _) x hx
        simpa [bodyHasKey] using hx2

/-- With `--disable`, no request of the device loop carries a
`ledSetting: 2` body. -/
theorem batchLoopAux_no_led2 (s : Session) (clock : Nat → Nat)
    (noleds : Bool) (devices : List Device) : ∀ idx : Nat,
    (batchLoopAux s clock true noleds devices idx).all
      (fun r => !(bodyLed r == some 2)) = true := by
  induction devices with
  | nil => intro idx; rfl
  | cons d ds ih =>
    intro idx
    cases noleds <;>
      simp [batchLoopAux, set_eap_2g_radio_request,
        set_eap_led_status_request, makeApiCallRequest, bodyLed,
        radio2gBody, ledBody, ih] <;>
      · intro x hx
        have hx2 := List.all_eq_true.mp (ih _) x hx
        simpa [bodyLed] using hx2

/-- With `--no-leds`, the device loop issues zero requests with a
`ledSetting` body. -/
theorem batchLoopAux_noleds_no_led (s : Session) (clock : Nat → Nat)
    (devices : List Device) : ∀ idx : Nat,
    (batchLoopAux s clock true true devices idx).filter
      (fun r => bodyHasKey r "ledSetting") = [] := by
  induction devices with
  | nil => intro idx; rfl
  | cons d ds ih =>
    intro idx
    simp [batchLoopAux, set_eap_2g_radio_request, makeApiCallRequest,
      bodyHasKey, radio2gBody, List.filter_cons, ih]
    intro x hx
    have hx2 := List.filter_eq_nil_iff.mp (ih (idx + 1)) x hx
    simpa [bodyHasKey] using hx2

/-- C5: for every device list, the batch script with `--disable` issues,
for each device in list order, a PATCH to `/sites/{site}/eaps/{mac}` with
body `{"radioSetting2g": {"radioEnable": false}}` followed by a PATCH with
body `{"ledSetting": 0}`; it never issues a `radioSetting5g` body and
never emits `ledSetting` 2; with `--no-leds` only the radio PATCH calls
are issued and zero `ledSetting` PATCH calls occur. -/
theorem batch_disable_patch_sequence (s : Session) (clock : Nat → Nat)
    (devices : List Device) :
    ((batchLoop s clock true false devices).map
        (fun r => (r.mode, r.url, r.body)) = specDisableCalls s devices) ∧
    ((batchLoop s clock true false devices).all
        (fun r => !(bodyHasKey r "radioSetting5g")) = true) ∧
    ((batchLoop s clock true false devices).all
        (fun r => !(bodyLed r == some 2)) = true) ∧
    ((batchLoop s clock true true devices).map
        (fun r => (r.mode, r.url, r.body)) =
      specDisableNoLedsCalls s devices) ∧
    ((batchLoop s clock true true devices).all
        (fun r => !(bodyHasKey r "radioSetting5g")) = true) ∧
    ((batchLoop s clock true true devices).filter
        (fun r => bodyHasKey r "ledSetting") = []) := by
  exact ⟨batchLoopAux_disable_leds_map s clock devices 0,
    batchLoopAux_no_5g s clock false devices 0,
    batchLoopAux_no_led2 s clock false devices 0,
    batchLoopAux_disable_noleds_map s clock devices 0,
    batchLoopAux_no_5g s clock true devices 0,
    batchLoopAux_noleds_no_led s clock devices 0⟩

/-- Witness for C9 at a concrete monotone clock and two concrete calls. -/
theorem timestamp_param_nondecreasing_witness :
    lookupParam
        (makeApiCallRequest testSession ((fun n => 1700000000000000 + n * 250000) 0)
          "/users" "GET" [] none true false true).params "_" =
      some (Json.num (Int.ofNat
        (get_timestamp ((fun n => 1700000000000000 + n * 250000) 0)))) ∧
    lookupParam
        (makeApiCallRequest testSession ((fun n => 1700000000000000 + n * 250000) 3)
          "/sites" "GET" [] none true false true).params "_" =
      some (Json.num (Int.ofNat
        (get_timestamp ((fun n => 1700000000000000 + n * 250000) 3)))) ∧
    get_timestamp ((fun n => 1700000000000000 + n * 250000) 0) ≤
      get_timestamp ((fun n => 1700000000000000 + n * 250000) 3) := by
  exact timestamp_param_nondecreasing (fun n => 1700000000000000 + n * 250000)
    (fun i j hij => by simp only []; omega) 0 3 (by decide)
    testSession testSession "/users" "/sites" "GET" "GET" [] [] none none
    false false true true

end Pyomada
